import Mathlib

/-!
Shallow embedding of the appointment-scheduling and consultation-lifecycle
core of the fixandfit backend.

Sources embedded:
* `src/backend/models/Appointment.js` (schema validation and the
  `pre('save')` overlap guard);
* `src/unnamed/part_009` (the appointment controller:
  `createAppointment`, `updateAppointment`, `cancelAppointment`,
  `getAvailableSlots`);
* `src/backend/models/Consultation.js` (schema, instance methods);
* `src/backend/controllers/consultationController.js` (the consultation
  controllers).

Conventions: JS `Date` values are modelled as `Int` millisecond timestamps,
Mongo ObjectIds as `Nat`, a Mongo collection as a `List` of records.  A
controller call is a function from the store (plus request data) to
`Except Err` of the new store; persistence of a document replaces the record
with the same `id`.  Mongoose semantics that the embedding relies on:
document validation runs before user `pre('save')` hooks; `pre('save')`
hooks run on `Document#save` (hence on `Model.create`) but NOT on
`findByIdAndUpdate`, which issues an update query and only runs update
validators on the patched paths.
-/

deriving instance DecidableEq for Except

namespace FixAndFit

/-- The `status` enum of the Appointment schema. -/
inductive AppStatus
  | scheduled
  | completed
  | cancelled
  | noShow
  | inProgress
deriving DecidableEq, Repr

/-- The `role` values of users as used by the controllers (`'user'`, `'staff'`,
`'admin'`). -/
inductive Role
  | user
  | staff
  | admin
deriving DecidableEq, Repr

/-- The authenticated requester (`req.user`). -/
structure Caller where
  id : Nat
  role : Role
deriving DecidableEq, Repr

/-- An appointment record (`src/backend/models/Appointment.js`).  Fields not
consulted by any of the embedded operations (`notes`, `documents`,
`meetingLink`, `reminders`, timestamps) are omitted; `appointmentType` and
`reason` are carried as plain strings. -/
structure Appointment where
  id : Nat
  patient : Nat
  admin : Nat
  appointmentType : String
  status : AppStatus
  startTime : Int
  endTime : Int
  reason : String
  isVirtual : Bool
  cancelledAt : Option Int
  cancellationReason : Option String
deriving DecidableEq, Repr

abbrev AppStore := List Appointment

/-- Error kinds surfaced by the embedded operations (each corresponds to an
`AppError` / mongoose error in the source). -/
inductive Err
  | slotBooked
  | pastStart
  | endNotAfterStart
  | noAdmin
  | dateRequired
  | notFound
  | notAuthorized
  | validationFailed
  | dupKey
  | typeError
deriving DecidableEq, Repr

/-- The enum list of `appointmentType` in the Appointment schema. -/
def appTypeValues : List String :=
  ["consultation", "fitting", "follow-up", "adjustment", "emergency",
   "virtual-consultation"]

/-- Schema-level validation of an appointment document: `endTime` must be
strictly after `startTime` (custom validator), `reason` is required (a
required string path also rejects the empty string), `appointmentType` must
be one of the enum values.  (`patient`, `admin`, `startTime` are required but
always present in the embedding.) -/
def apptValid (a : Appointment) : Bool :=
  a.startTime < a.endTime && a.reason != "" && appTypeValues.contains a.appointmentType

/-- One disjunct of the `pre('save')` conflict query in `Appointment.js`
(lines 105-126): `other` conflicts with the document `this` being saved when
it shares the admin or the patient, is a different document, is not
cancelled, and its `[startTime, endTime)` interval overlaps
(`startTime < this.endTime && endTime > this.startTime`). -/
def conflictsWith (this other : Appointment) : Bool :=
  (other.admin == this.admin && other.id != this.id
      && other.status != AppStatus.cancelled
      && other.startTime < this.endTime && other.endTime > this.startTime)
  || (other.patient == this.patient && other.id != this.id
      && other.status != AppStatus.cancelled
      && other.startTime < this.endTime && other.endTime > this.startTime)

/-- Embedding of `Document#save` on an existing (fetched) appointment: validation first,
then the `pre('save')` hook — skipped entirely for cancelled documents
(line 103), otherwise the save is rejected with `'Time slot is already
booked'` when some stored record conflicts; on success the record replaces
the one with the same id. -/
def apptSave (store : AppStore) (a : Appointment) : Except Err AppStore :=
  if !(apptValid a) then .error .validationFailed
  else if a.status != AppStatus.cancelled && store.any (conflictsWith a) then
    .error .slotBooked
  else .ok (a :: store.filter (fun b => b.id != a.id))

/-- Embedding of `Model.create` (insert): validation, the same `pre('save')` hook, then
the insert itself, which fails with a duplicate-key error if the id is
already taken. -/
def apptInsert (store : AppStore) (a : Appointment) : Except Err AppStore :=
  if !(apptValid a) then .error .validationFailed
  else if a.status != AppStatus.cancelled && store.any (conflictsWith a) then
    .error .slotBooked
  else if store.any (fun b => b.id == a.id) then .error .dupKey
  else .ok (a :: store)

/-- Request body of `createAppointment`. -/
structure CreateReq where
  appointmentType : String
  startTime : Int
  endTime : Int
  reason : String
  isVirtual : Bool
deriving DecidableEq, Repr

/-- The document built by `createAppointment` (part_009 lines 107-115):
patient is the requester, admin the resolved provider, status defaults to
`scheduled`. -/
def mkNewAppt (callerId adminId newId : Nat) (r : CreateReq) : Appointment :=
  { id := newId
    patient := callerId
    admin := adminId
    appointmentType := r.appointmentType
    status := AppStatus.scheduled
    startTime := r.startTime
    endTime := r.endTime
    reason := r.reason
    isVirtual := r.isVirtual
    cancelledAt := none
    cancellationReason := none }

/-- Embedding of `createAppointment` (part_009 lines 79-125).  `adminOpt` is the result
of `User.findOne({role:'admin', isActive:true})` (none when no active admin
exists); `now` is the current instant; `newId` the id Mongo assigns to the
new document.  Checks, in source order: admin available, start not in the
past (`appointmentStart < now` rejects; equality is allowed), end strictly
after start, then `Appointment.create` (validation + overlap hook). -/
def createAppointment (store : AppStore) (adminOpt : Option Nat)
    (callerId newId : Nat) (now : Int) (r : CreateReq) : Except Err AppStore :=
  match adminOpt with
  | none => .error .noAdmin
  | some adminId =>
    if r.startTime < now then .error .pastStart
    else if r.endTime ≤ r.startTime then .error .endNotAfterStart
    else apptInsert store (mkNewAppt callerId adminId newId r)

/-- A field patch for `updateAppointment` (`req.body`), restricted to the
schema paths the embedded claims exercise. -/
structure UpdatePatch where
  startTime : Option Int
  endTime : Option Int
  status : Option AppStatus
deriving DecidableEq, Repr

/-- Application of a patch to a stored document. -/
def applyPatch (a : Appointment) (p : UpdatePatch) : Appointment :=
  { a with
    startTime := p.startTime.getD a.startTime
    endTime := p.endTime.getD a.endTime
    status := p.status.getD a.status }

/-- Embedding of the call
`Appointment.findByIdAndUpdate(id, body, {new:true, runValidators:true})`
(part_009 lines 145-152).  This is a query-level update: no `pre('save')`
middleware runs, so the overlap guard of `Appointment.js` is never executed.
Update validators run only on the patched paths; the custom `endTime`
validator compares the value against `this.startTime`, but in an update
validator `this` is not the document being updated, so a patch that touches
`endTime` never passes validation.  A patched `startTime` or `status` value
passes its path validators. -/
def findByIdAndUpdate (store : AppStore) (apptId : Nat) (p : UpdatePatch) :
    Except Err AppStore :=
  match store.find? (fun b => b.id == apptId) with
  | none => .ok store
  | some a =>
    if p.endTime.isSome then .error .validationFailed
    else .ok (applyPatch a p :: store.filter (fun b => b.id != apptId))

/-- Embedding of `updateAppointment` (part_009 lines 128-160): fetch, permission check
(admin, staff, or the owning patient), then `findByIdAndUpdate`. -/
def updateAppointment (store : AppStore) (caller : Caller) (apptId : Nat)
    (p : UpdatePatch) : Except Err AppStore :=
  match store.find? (fun b => b.id == apptId) with
  | none => .error .notFound
  | some a =>
    if caller.role == Role.admin || caller.role == Role.staff
        || a.patient == caller.id then
      findByIdAndUpdate store apptId p
    else .error .notAuthorized

/-- Embedding of `cancelAppointment` (part_009 lines 163-192): fetch, permission check,
set `status := 'cancelled'`, stamp `cancelledAt`, record the reason
(defaulting to `'No reason provided'`), then `save()` (which skips the
overlap hook because the document is cancelled). -/
def cancelAppointment (store : AppStore) (caller : Caller) (apptId : Nat)
    (now : Int) (reason : Option String) : Except Err AppStore :=
  match store.find? (fun b => b.id == apptId) with
  | none => .error .notFound
  | some a =>
    if caller.role == Role.admin || caller.role == Role.staff
        || a.patient == caller.id then
      apptSave store
        { a with
          status := AppStatus.cancelled
          cancelledAt := some now
          cancellationReason := some (reason.getD "No reason provided") }
    else .error .notAuthorized

/-- A bookable window returned by `getAvailableSlots`. -/
structure Slot where
  startTime : Int
  endTime : Int
deriving DecidableEq, Repr

/-- Milliseconds in an hour. -/
def msPerHour : Int := 3600000

/-- The existing-appointments query of `getAvailableSlots` (part_009 lines
213-217): the resolved admin's non-cancelled appointments whose `startTime`
lies between the start of the selected day and `23:59:59.999` of that day.
`dayStart` is the millisecond timestamp of the day's midnight. -/
def fetchDayAppointments (store : AppStore) (adminId : Nat) (dayStart : Int) :
    AppStore :=
  store.filter (fun a =>
    a.admin == adminId && dayStart ≤ a.startTime
      && a.startTime ≤ dayStart + 86399999
      && a.status != AppStatus.cancelled)

/-- The slot-generation loop (part_009 lines 219-247): for each hour from
9 to 16 the candidate window `[dayStart + hour*1h, dayStart + (hour+1)*1h)`
is kept when it conflicts with no fetched appointment
(`slotStart < appointment.endTime && slotEnd > appointment.startTime`) and
its start is strictly in the future. -/
def genSlots (existing : AppStore) (dayStart now : Int) : List Slot :=
  (List.range 8).filterMap (fun i =>
    let slotStart : Int := dayStart + ((9 : Int) + Int.ofNat i) * msPerHour
    let slotEnd : Int := slotStart + msPerHour
    if (!(existing.any (fun a =>
          slotStart < a.endTime && slotEnd > a.startTime)))
        && now < slotStart then
      some { startTime := slotStart, endTime := slotEnd }
    else none)

/-- Embedding of `getAvailableSlots` (part_009 lines 195-255).  `dateOpt` is the parsed
`date` query parameter normalised to the day's midnight (none when the
parameter is missing); `adminOpt` the resolved provider. -/
def getAvailableSlots (store : AppStore) (adminOpt : Option Nat)
    (dateOpt : Option Int) (now : Int) : Except Err (List Slot) :=
  match dateOpt with
  | none => .error .dateRequired
  | some dayStart =>
    match adminOpt with
    | none => .error .noAdmin
    | some adminId =>
      .ok (genSlots (fetchDayAppointments store adminId dayStart) dayStart now)

/-- The no-overlap invariant of the specification: no two distinct
non-cancelled appointments sharing the admin or the patient have
overlapping `[startTime, endTime)` intervals. -/
def pairConflict (a b : Appointment) : Bool :=
  a.status != AppStatus.cancelled && b.status != AppStatus.cancelled
    && (a.admin == b.admin || a.patient == b.patient)
    && a.startTime < b.endTime && b.startTime < a.endTime

/-- Boolean form of the no-overlap invariant over a store. -/
def noOverlapB (store : AppStore) : Bool :=
  store.all (fun a => store.all (fun b => a.id == b.id || !(pairConflict a b)))

/-- The `status` enum of the Consultation schema. -/
inductive ConsStatus
  | scheduled
  | active
  | completed
  | cancelled
deriving DecidableEq, Repr

/-- The `participants.role` enum of the Consultation schema. -/
inductive PartRole
  | patient
  | admin
  | observer
deriving DecidableEq, Repr

/-- A JS number value stored in a mongoose `Number` path: either an actual
integer or `NaN` (which arises from arithmetic on an unset `Date`). -/
inductive JSNum
  | num (n : Int)
  | nan
deriving DecidableEq, Repr

/-- JS falsiness of an optional number (`undefined`, `NaN` and `0` are
falsy). -/
def jsFalsyNum : Option JSNum → Bool
  | none => true
  | some JSNum.nan => true
  | some (JSNum.num n) => n == 0

/-- Embedding of `Math.round((e - s) / 60000)` for integer millisecond
timestamps:
JS `Math.round x = ⌊x + 1/2⌋`. -/
def jsRoundMin (d : Int) : Int := Int.fdiv (2 * d + 60000) 120000

/-- A `participants` subdocument of the Consultation schema.  `role` is a
required path with no default, modelled as an `Option` so that a push that
omits it can be represented (`connectionStatus` defaults and is never read
by the embedded operations, so it is omitted). -/
structure Participant where
  user : Nat
  role : Option PartRole
  joinedAt : Option Int
  leftAt : Option Int
deriving DecidableEq, Repr

/-- The `feedback` subdocument. -/
structure Feedback where
  patientRating : Option Int := none
  patientFeedback : Option String := none
  practitionerRating : Option Int := none
  practitionerFeedback : Option String := none
  technicalRating : Option Int := none
deriving DecidableEq, Repr

/-- A consultation record (`src/backend/models/Consultation.js`).
`recordings`, `attachments`, `technicalIssues`, the follow-up fields and
timestamps are omitted (no embedded operation reads them). -/
structure Consultation where
  id : Nat
  appointment : Nat
  patient : Nat
  practitioner : Nat
  roomId : String
  status : ConsStatus
  startTime : Int
  endTime : Option Int
  actualStartTime : Option Int
  actualEndTime : Option Int
  duration : Option JSNum
  notes : Option String
  patientNotes : Option String
  practitionerNotes : Option String
  participants : List Participant
  feedback : Feedback
deriving DecidableEq, Repr

abbrev ConsStore := List Consultation

/-- Rating paths have `min: 1, max: 5` validators. -/
def ratingOk : Option Int → Bool
  | none => true
  | some n => 1 ≤ n && n ≤ 5

/-- Schema-level validation of a consultation document: `roomId` required,
every `participants` subdocument must have its required `role`, the three
rating bounds, and a `Number` path cannot hold `NaN` (mongoose's number cast
rejects it).  Validation runs before the `pre('save')` hooks, which is why a
missing required `roomId` cannot be rescued by the roomId-generating hook. -/
def consValid (c : Consultation) : Bool :=
  c.roomId != "" && c.participants.all (fun p => p.role.isSome)
    && c.duration != some JSNum.nan
    && ratingOk c.feedback.patientRating
    && ratingOk c.feedback.practitionerRating
    && ratingOk c.feedback.technicalRating

/-- The duration-calculating `pre('save')` hook (Consultation.js lines
174-179): when both actual times are set and `duration` is falsy, recompute
`duration = Math.round((actualEndTime - actualStartTime) / 60000)`. -/
def consPreSave (c : Consultation) : Consultation :=
  match c.actualStartTime, c.actualEndTime with
  | some s, some e =>
    if jsFalsyNum c.duration then
      { c with duration := some (JSNum.num (jsRoundMin (e - s))) }
    else c
  | _, _ => c

/-- Embedding of `Document#save` for a consultation: validation, then the `pre('save')`
hooks, then persistence (replacing the record with the same id). -/
def consSave (store : ConsStore) (c : Consultation) : Except Err ConsStore :=
  if !(consValid c) then .error .validationFailed
  else .ok (consPreSave c :: store.filter (fun d => d.id != c.id))

/-- The `startConsultation` instance method (Consultation.js lines 182-186):
unconditionally sets `status := 'active'` and stamps a fresh
`actualStartTime`; the previous status is never inspected. -/
def mStartConsultation (c : Consultation) (now : Int) : Consultation :=
  { c with status := ConsStatus.active, actualStartTime := some now }

/-- The `endConsultation` instance method (Consultation.js lines 189-197):
unconditionally sets `status := 'completed'`, stamps `actualEndTime`,
optionally records `notes`, and computes
`duration = Math.round((actualEndTime - actualStartTime) / 60000)` — which
is `NaN` when `actualStartTime` was never set (`Date` minus `undefined`). -/
def mEndConsultation (c : Consultation) (now : Int) (notes : Option String) :
    Consultation :=
  { c with
    status := ConsStatus.completed
    actualEndTime := some now
    notes := match notes with | some n => some n | none => c.notes
    duration := some (match c.actualStartTime with
      | some s => JSNum.num (jsRoundMin (now - s))
      | none => JSNum.nan) }

/-- Mutation of the first participant entry matching a user (the methods use
`participants.find(...)` and mutate the found subdocument). -/
def updateFirstPart (f : Participant → Participant) (uid : Nat) :
    List Participant → List Participant
  | [] => []
  | p :: ps =>
    if p.user == uid then f p :: ps else p :: updateFirstPart f uid ps

/-- The `addParticipant` instance method (Consultation.js lines 200-214): if an
entry for the user exists, stamp a fresh `joinedAt` and clear `leftAt`;
otherwise push a new entry carrying only `user` and `joinedAt` — in
particular WITHOUT the required `role`. -/
def mAddParticipant (c : Consultation) (uid : Nat) (now : Int) : Consultation :=
  if c.participants.any (fun p => p.user == uid) then
    { c with participants := (updateFirstPart
        (fun p => { p with joinedAt := some now, leftAt := none }) uid
        c.participants) }
  else
    { c with participants := c.participants ++
        [{ user := uid, role := none, joinedAt := some now, leftAt := none }] }

/-- The `removeParticipant` instance method (Consultation.js lines 217-225):
stamp `leftAt` on the user's entry when present; otherwise no change. -/
def mRemoveParticipant (c : Consultation) (uid : Nat) (now : Int) :
    Consultation :=
  { c with participants := (updateFirstPart
      (fun p => { p with leftAt := some now }) uid c.participants) }

/-- The Appointment schema defines no `user` path: `appointment.user` is
`undefined` for every appointment document (the schema's corresponding
fields are `patient` and `admin`). -/
def apptUserField (_ : Appointment) : Option Nat := none

/-- The Appointment schema defines no `practitioner` path either. -/
def apptPractitionerField (_ : Appointment) : Option Nat := none

/-- Embedding of `createConsultation` (consultationController.js lines
8-53).  The
controller fetches the appointment, then evaluates
`appointment.user._id` and `appointment.practitioner._id`; since `user` and
`practitioner` are not schema paths of Appointment, this dereferences
`undefined` and the request fails with a TypeError (with mongoose ≥ 6 the
`populate('user practitioner')` call already rejects with a strict-populate
error).  The subsequent idempotency logic (return the existing consultation
for the appointment, otherwise create one — whose `Consultation.create`
omits the required `roomId`) is embedded for completeness but unreachable. -/
def createConsultation (appts : AppStore) (cons : ConsStore) (caller : Caller)
    (apptId : Nat) (newId : Nat) : Except Err (ConsStore × Consultation) :=
  match appts.find? (fun a => a.id == apptId) with
  | none => .error .notFound
  | some appt =>
    match apptUserField appt, apptPractitionerField appt with
    | some u, some pr =>
      if u != caller.id && pr != caller.id && caller.role != Role.admin then
        .error .notAuthorized
      else
        match cons.find? (fun c => c.appointment == apptId) with
        | some existing => .ok (cons, existing)
        | none =>
          let c : Consultation :=
            { id := newId, appointment := apptId, patient := u,
              practitioner := pr, roomId := "", status := ConsStatus.scheduled,
              startTime := appt.startTime, endTime := some appt.endTime,
              actualStartTime := none, actualEndTime := none, duration := none,
              notes := none, patientNotes := none, practitionerNotes := none,
              participants := [], feedback := {} }
          match consSave cons c with
          | .error e => .error e
          | .ok store' => .ok (store', consPreSave c)
    | _, _ => .error .typeError

/-- The `startConsultation` controller (consultationController.js lines
140-166): fetch, authorization (patient, practitioner, or admin), then TWO
independent saves: `consultation.startConsultation()` persists the status
change, and `consultation.addParticipant(req.user.id)` persists the
participant upsert.  Because the first save commits even if the second
fails, the result is the store reached so far paired with the optional
error response. -/
def startConsultation (store : ConsStore) (caller : Caller) (cid : Nat)
    (now : Int) : ConsStore × Option Err :=
  match store.find? (fun c => c.id == cid) with
  | none => (store, some Err.notFound)
  | some c =>
    if c.patient != caller.id && c.practitioner != caller.id
        && caller.role != Role.admin then
      (store, some Err.notAuthorized)
    else
      let c1 := mStartConsultation c now
      match consSave store c1 with
      | .error e => (store, some e)
      | .ok store1 =>
        let c2 := mAddParticipant (consPreSave c1) caller.id now
        match consSave store1 c2 with
        | .error e => (store1, some e)
        | .ok store2 => (store2, none)

/-- The controller's `if (patientNotes) ... if (practitionerNotes) ...`
assignments that follow `consultation.endConsultation(notes)` and precede
the second save. -/
def applyEndNotes (c2 : Consultation)
    (patientNotes practitionerNotes : Option String) : Consultation :=
  { c2 with
    patientNotes := (match patientNotes with
      | some n => some n | none => c2.patientNotes)
    practitionerNotes := (match practitionerNotes with
      | some n => some n | none => c2.practitionerNotes) }

/-- The `endConsultation` controller (consultationController.js lines 169-198):
fetch, authorization (only the practitioner or an admin — the patient is
not allowed), `consultation.endConsultation(notes)` (first save), then the
optional `patientNotes` / `practitionerNotes` assignments followed by a
second save (applied to the in-memory document, on which the first save's
`pre('save')` hooks have already run). -/
def endConsultation (store : ConsStore) (caller : Caller) (cid : Nat)
    (now : Int) (notes patientNotes practitionerNotes : Option String) :
    Except Err ConsStore :=
  match store.find? (fun c => c.id == cid) with
  | none => .error .notFound
  | some c =>
    if c.practitioner != caller.id && caller.role != Role.admin then
      .error .notAuthorized
    else
      let c1 := mEndConsultation c now notes
      match consSave store c1 with
      | .error e => .error e
      | .ok store1 =>
        consSave store1
          (applyEndNotes (consPreSave c1) patientNotes practitionerNotes)

/-- The `joinConsultation` controller (consultationController.js lines 201-225):
fetch, authorization (patient, practitioner, or admin), then
`addParticipant` + save. -/
def joinConsultation (store : ConsStore) (caller : Caller) (cid : Nat)
    (now : Int) : Except Err ConsStore :=
  match store.find? (fun c => c.id == cid) with
  | none => .error .notFound
  | some c =>
    if c.patient != caller.id && c.practitioner != caller.id
        && caller.role != Role.admin then
      .error .notAuthorized
    else consSave store (mAddParticipant c caller.id now)

/-- The `leaveConsultation` controller (consultationController.js lines
228-245): fetch, then `removeParticipant` + save — with NO authorization
check of any kind. -/
def leaveConsultation (store : ConsStore) (caller : Caller) (cid : Nat)
    (now : Int) : Except Err ConsStore :=
  match store.find? (fun c => c.id == cid) with
  | none => .error .notFound
  | some c => consSave store (mRemoveParticipant c caller.id now)

/-- The `addNotes` controller (consultationController.js lines 248-282): fetch,
authorization (patient, practitioner, or admin), route the text to
`patientNotes` / `practitionerNotes` / shared `notes` depending on the
`type` parameter and the caller, then save. -/
def addNotes (store : ConsStore) (caller : Caller) (cid : Nat)
    (notes : String) (type? : Option String) : Except Err ConsStore :=
  match store.find? (fun c => c.id == cid) with
  | none => .error .notFound
  | some c =>
    if c.patient != caller.id && c.practitioner != caller.id
        && caller.role != Role.admin then
      .error .notAuthorized
    else
      let c' :=
        if type? == some "patient" && c.patient == caller.id then
          { c with patientNotes := some notes }
        else if type? == some "practitioner" && c.practitioner == caller.id then
          { c with practitionerNotes := some notes }
        else { c with notes := some notes }
      consSave store c'

/-- The `submitFeedback` controller (consultationController.js lines 285-322):
fetch, authorization (patient or practitioner only — an admin who is
neither is rejected too), record the rating/feedback on the caller's side,
record `technicalRating` when truthy, then save. -/
def submitFeedback (store : ConsStore) (caller : Caller) (cid : Nat)
    (rating : Option Int) (fb : Option String) (technicalRating : Option Int) :
    Except Err ConsStore :=
  match store.find? (fun c => c.id == cid) with
  | none => .error .notFound
  | some c =>
    if c.patient != caller.id && c.practitioner != caller.id then
      .error .notAuthorized
    else
      let c1 :=
        if c.patient == caller.id then
          { c with feedback := { c.feedback with
              patientRating := rating, patientFeedback := fb } }
        else if c.practitioner == caller.id then
          { c with feedback := { c.feedback with
              practitionerRating := rating, practitionerFeedback := fb } }
        else c
      let c2 := match technicalRating with
        | some t => if t != 0 then
            { c1 with feedback := { c1.feedback with technicalRating := some t } }
          else c1
        | none => c1
      consSave store c2

/-- The states reachable from the empty store by successful
`createAppointment` calls. -/
inductive ReachableByCreate : AppStore → Prop
  | empty : ReachableByCreate []
  | create (s s' : AppStore) (adminOpt : Option Nat) (callerId newId : Nat)
      (now : Int) (r : CreateReq) :
      ReachableByCreate s →
      createAppointment s adminOpt callerId newId now r = Except.ok s' →
      ReachableByCreate s'

theorem pairConflict_true_iff (a b : Appointment) :
    pairConflict a b = true ↔
      a.status ≠ AppStatus.cancelled ∧ b.status ≠ AppStatus.cancelled ∧
        (a.admin = b.admin ∨ a.patient = b.patient) ∧
        a.startTime < b.endTime ∧ b.startTime < a.endTime := by
  simp [pairConflict, and_assoc]

theorem conflictsWith_true_iff (a b : Appointment) :
    conflictsWith a b = true ↔
      (b.admin = a.admin ∨ b.patient = a.patient) ∧ b.id ≠ a.id ∧
        b.status ≠ AppStatus.cancelled ∧
        b.startTime < a.endTime ∧ b.endTime > a.startTime := by
  simp only [conflictsWith, Bool.or_eq_true, Bool.and_eq_true, beq_iff_eq,
    bne_iff_ne, decide_eq_true_eq]
  tauto

theorem noOverlapB_true_iff (s : AppStore) :
    noOverlapB s = true ↔
      ∀ a ∈ s, ∀ b ∈ s, a.id = b.id ∨ pairConflict a b = false := by
  simp [noOverlapB, List.all_eq_true, Bool.or_eq_true, Bool.not_eq_true']

/-- Inserting a document that passed the `pre('save')` conflict query (and
the duplicate-id check) preserves the no-overlap invariant. -/
theorem noOverlapB_insert (s : AppStore) (a : Appointment)
    (hinv : noOverlapB s = true)
    (hconf : s.any (conflictsWith a) = false)
    (hid : s.any (fun b => b.id == a.id) = false) :
    noOverlapB (a :: s) = true := by
  rw [noOverlapB_true_iff] at hinv ⊢
  rw [List.any_eq_false] at hconf hid
  intro x hx y hy
  by_cases hxy : x.id = y.id
  · exact Or.inl hxy
  refine Or.inr (Bool.eq_false_iff.mpr (fun hpc => ?_))
  rw [pairConflict_true_iff] at hpc
  rcases List.mem_cons.mp hx with rfl | hx'
  · rcases List.mem_cons.mp hy with rfl | hy'
    · exact hxy rfl
    · have : conflictsWith x y = true := by
        rw [conflictsWith_true_iff]
        refine ⟨?_, ?_, hpc.2.1, hpc.2.2.2.2, hpc.2.2.2.1⟩
        · rcases hpc.2.2.1 with h | h
          · exact Or.inl h.symm
          · exact Or.inr h.symm
        · exact fun h => hxy h.symm
      have := hconf y hy'
      simp_all
  · rcases List.mem_cons.mp hy with rfl | hy'
    · have : conflictsWith y x = true := by
        rw [conflictsWith_true_iff]
        exact ⟨hpc.2.2.1, hxy, hpc.1, hpc.2.2.2.1, hpc.2.2.2.2⟩
      have := hconf x hx'
      simp_all
    · rcases hinv x hx' y hy' with h | h
      · exact hxy h
      · rw [(pairConflict_true_iff x y).mpr hpc] at h
        exact Bool.true_eq_false.mp h

/-- Inversion of a successful `createAppointment`. -/
theorem createAppointment_ok (s s' : AppStore) (adminOpt : Option Nat)
    (callerId newId : Nat) (now : Int) (r : CreateReq)
    (h : createAppointment s adminOpt callerId newId now r = Except.ok s') :
    ∃ adminId, adminOpt = some adminId ∧
      s' = mkNewAppt callerId adminId newId r :: s ∧
      s.any (conflictsWith (mkNewAppt callerId adminId newId r)) = false ∧
      s.any (fun b => b.id == newId) = false := by
  cases adminOpt with
  | none => simp [createAppointment] at h
  | some adminId =>
    refine ⟨adminId, rfl, ?_⟩
    simp only [createAppointment, apptInsert] at h
    split_ifs at h with h1 h2 h3 h4 h5
    obtain rfl := Except.ok.inj h
    refine ⟨rfl, ?_, ?_⟩
    · rcases Bool.and_eq_false_iff.mp (Bool.not_eq_true _ |>.mp h4) with hc | hc
      · exact absurd hc (by simp [mkNewAppt])
      · exact hc
    · have h5' := Bool.not_eq_true _ |>.mp h5
      simpa [mkNewAppt] using h5'

/-- C1: the no-overlap invariant holds in every state reachable from the
empty store by successful `createAppointment` calls, and a create whose
window overlaps an existing conflicting appointment is rejected with the
conflict error `'Time slot is already booked'`.  (`updateAppointment` is
excluded: see `C1_counterexample` — it persists through
`findByIdAndUpdate`, which does not run the save-time overlap guard.) -/
theorem C1_no_overlap_create_reachable :
    (∀ s, ReachableByCreate s → noOverlapB s = true) ∧
    (∀ (store : AppStore) (adminId callerId newId : Nat) (now : Int)
        (r : CreateReq),
      ¬(r.startTime < now) → ¬(r.endTime ≤ r.startTime) →
      apptValid (mkNewAppt callerId adminId newId r) = true →
      store.any (conflictsWith (mkNewAppt callerId adminId newId r)) = true →
      createAppointment store (some adminId) callerId newId now r =
        Except.error Err.slotBooked) := by
  constructor
  · intro s h
    induction h with
    | empty => rfl
    | create s s' adminOpt callerId newId now r _ hok ih =>
      obtain ⟨adminId, -, rfl, hconf, hid⟩ :=
        createAppointment_ok _ _ _ _ _ _ _ hok
      exact noOverlapB_insert _ _ ih hconf
        (by simpa [mkNewAppt] using hid)
  · intro store adminId callerId newId now r h1 h2 hv hc
    simp only [createAppointment, apptInsert]
    rw [if_neg h1, if_neg h2]
    split_ifs with h3 h4 h5
    · simp [hv] at h3
    · rfl
    · exact absurd (by rw [hc]; rfl) h4
    · exact absurd (by rw [hc]; rfl) h4

/-- Witness for `C1_no_overlap_create_reachable` at concrete inputs: a
one-appointment state reached by a successful create satisfies the
invariant, and a second create for an overlapping window by another patient
with the same admin is rejected with the conflict error. -/
theorem C1_no_overlap_create_reachable_witness :
    noOverlapB [mkNewAppt 1 50 10 ⟨"fitting", 100000, 200000, "r1", false⟩] =
      true ∧
    createAppointment [mkNewAppt 1 50 10 ⟨"fitting", 100000, 200000, "r1", false⟩]
      (some 50) 2 11 0 ⟨"fitting", 150000, 250000, "r2", false⟩ =
      Except.error Err.slotBooked := by
  constructor
  · exact C1_no_overlap_create_reachable.1 _
      (ReachableByCreate.create [] _ (some 50) 1 10 0
        ⟨"fitting", 100000, 200000, "r1", false⟩
        ReachableByCreate.empty (by rfl))
  · exact C1_no_overlap_create_reachable.2 _ 50 2 11 0
      ⟨"fitting", 150000, 250000, "r2", false⟩
      (by decide) (by decide) (by decide) (by decide)

/-- C1 counterexample: three successful operations — two non-overlapping
creates followed by an `updateAppointment` that moves the second window onto
the first — reach a state where two non-cancelled appointments of the same
admin overlap, so the claimed invariant over create/update-reachable states
is false. -/
theorem C1_counterexample :
    ((createAppointment [] (some 50) 1 10 0
          ⟨"fitting", 100000, 200000, "r1", false⟩ >>= fun s1 =>
        createAppointment s1 (some 50) 2 11 0
          ⟨"fitting", 200000, 300000, "r2", false⟩ >>= fun s2 =>
        updateAppointment s2 ⟨2, Role.user⟩ 11
          ⟨some 150000, none, none⟩).toOption.any
      (fun s => !(noOverlapB s))) = true := by decide

/-- C3: `updateAppointment` can never reject with the conflict error: the
overlap guard is `pre('save')` middleware and `findByIdAndUpdate` does not
run it. -/
theorem C3_update_never_conflict_checked (store : AppStore) (caller : Caller)
    (apptId : Nat) (p : UpdatePatch) :
    updateAppointment store caller apptId p ≠ Except.error Err.slotBooked := by
  cases hf : store.find? (fun b => b.id == apptId) with
  | none => simp [updateAppointment, hf]
  | some a =>
    simp only [updateAppointment, findByIdAndUpdate, hf]
    split_ifs <;> simp

/-- Witness for `C3_update_never_conflict_checked` at a concrete input. -/
theorem C3_update_never_conflict_checked_witness :
    updateAppointment [] ⟨1, Role.user⟩ 5 ⟨none, none, none⟩ ≠
      Except.error Err.slotBooked :=
  C3_update_never_conflict_checked [] ⟨1, Role.user⟩ 5 ⟨none, none, none⟩

/-- C3 counterexample: starting from a state holding two non-overlapping
same-admin appointments, patching the second appointment's `startTime` into
the first one's window is accepted (`Except.ok`), and the resulting state
violates the no-overlap invariant — the update is not re-validated against
the overlap check. -/
theorem C3_counterexample :
    (updateAppointment
      [⟨10, 1, 50, "fitting", AppStatus.scheduled, 100000, 200000, "r1",
         false, none, none⟩,
       ⟨11, 2, 50, "fitting", AppStatus.scheduled, 200000, 300000, "r2",
         false, none, none⟩]
      ⟨2, Role.user⟩ 11 ⟨some 150000, none, none⟩).toOption =
      some
        [⟨11, 2, 50, "fitting", AppStatus.scheduled, 150000, 300000, "r2",
           false, none, none⟩,
         ⟨10, 1, 50, "fitting", AppStatus.scheduled, 100000, 200000, "r1",
           false, none, none⟩] ∧
    noOverlapB
      [⟨11, 2, 50, "fitting", AppStatus.scheduled, 150000, 300000, "r2",
         false, none, none⟩,
       ⟨10, 1, 50, "fitting", AppStatus.scheduled, 100000, 200000, "r1",
         false, none, none⟩] = false := by decide

/-- Membership inversion for the slot-generation loop: a produced slot is a
one-hour window whose start is strictly in the future and which conflicts
with none of the fetched appointments. -/
theorem mem_genSlots (existing : AppStore) (dayStart now : Int) (s : Slot)
    (hs : s ∈ genSlots existing dayStart now) :
    now < s.startTime ∧ s.endTime = s.startTime + msPerHour ∧
      ∀ a ∈ existing, ¬(s.startTime < a.endTime ∧ s.endTime > a.startTime) := by
  unfold genSlots at hs
  rcases List.mem_filterMap.mp hs with ⟨i, -, hif⟩
  dsimp only at hif
  split at hif
  case isTrue hcond =>
    obtain rfl := Option.some.inj hif
    simp only [Bool.and_eq_true, Bool.not_eq_true', decide_eq_true_eq] at hcond
    refine ⟨hcond.2, rfl, fun a ha hover => ?_⟩
    have h2 := List.any_eq_false.mp hcond.1 a ha
    simp only [Bool.and_eq_true, decide_eq_true_eq] at h2
    exact h2 hover
  case isFalse => exact absurd hif (by simp)

/-- C2 (amended): a slot returned by `getAvailableSlots` starts strictly in
the future and conflicts with no appointment in the fetched set — which is
exactly the provider's non-cancelled appointments whose `startTime` lies
within the requested calendar day (appointments merely overlapping the day
from before midnight are not fetched). -/
theorem C2_slots_avoid_fetched (store : AppStore) (adminId : Nat)
    (dayStart now : Int) (slots : List Slot) (s : Slot) (a : Appointment)
    (hres : getAvailableSlots store (some adminId) (some dayStart) now =
      Except.ok slots)
    (hs : s ∈ slots) :
    now < s.startTime ∧
      (a ∈ fetchDayAppointments store adminId dayStart ↔
        a ∈ store ∧ a.admin = adminId ∧ dayStart ≤ a.startTime ∧
          a.startTime ≤ dayStart + 86399999 ∧
          a.status ≠ AppStatus.cancelled) ∧
      (a ∈ fetchDayAppointments store adminId dayStart →
        ¬(s.startTime < a.endTime ∧ s.endTime > a.startTime)) := by
  have hslots : slots = genSlots (fetchDayAppointments store adminId dayStart)
      dayStart now := (Except.ok.inj hres).symm
  subst hslots
  have hmem := mem_genSlots _ _ _ _ hs
  refine ⟨hmem.1, ?_, fun ha => hmem.2.2 a ha⟩
  simp [fetchDayAppointments, List.mem_filter, and_assoc]

/-- C2 counterexample: an appointment of the provider running from 23:00 of
the previous day to 10:00 of the requested day (`dayStart = 0`) is not
fetched (its `startTime` is outside the day), so the 09:00–10:00 slot is
returned even though its window intersects that non-cancelled
appointment. -/
theorem C2_counterexample :
    ((getAvailableSlots
        [⟨7, 1, 50, "fitting", AppStatus.scheduled, -3600000, 36000000, "r",
           false, none, none⟩]
        (some 50) (some 0) (-7200000)).toOption.any
      (fun slots => slots.any (fun s =>
        [⟨7, 1, 50, "fitting", AppStatus.scheduled, -3600000, 36000000, "r",
           false, none, none⟩].any (fun a : Appointment =>
          a.admin == 50 && a.status != AppStatus.cancelled
            && s.startTime < a.endTime && s.endTime > a.startTime)))) =
      true := by decide

/-- A `filterMap` over an if-guard degenerates to `map` when every guard
holds. -/
theorem filterMap_if_all (f : Nat → Slot) (p : Nat → Bool) (l : List Nat)
    (h : ∀ i ∈ l, p i = true) :
    (l.filterMap fun i => if p i = true then some (f i) else none) =
      l.map f := by
  induction l with
  | nil => rfl
  | cons a l ih =>
    rw [List.filterMap_cons, List.map_cons]
    rw [if_pos (h a (List.mem_cons_self a l))]
    rw [ih fun i hi => h i (List.mem_cons_of_mem a hi)]

/-- C7: when the provider has no non-cancelled appointment starting within
the requested day and the call is made before 09:00 of that day,
`getAvailableSlots` returns exactly the eight hourly slots
09:00–10:00, …, 16:00–17:00 in chronological order. -/
theorem C7_empty_day_slots (store : AppStore) (adminId : Nat)
    (dayStart now : Int)
    (hempty : ∀ a ∈ store, a.admin = adminId →
      a.status ≠ AppStatus.cancelled →
      ¬(dayStart ≤ a.startTime ∧ a.startTime ≤ dayStart + 86399999))
    (hnow : now < dayStart + 9 * msPerHour) :
    getAvailableSlots store (some adminId) (some dayStart) now =
      Except.ok
        [⟨dayStart + 9 * msPerHour, dayStart + 10 * msPerHour⟩,
         ⟨dayStart + 10 * msPerHour, dayStart + 11 * msPerHour⟩,
         ⟨dayStart + 11 * msPerHour, dayStart + 12 * msPerHour⟩,
         ⟨dayStart + 12 * msPerHour, dayStart + 13 * msPerHour⟩,
         ⟨dayStart + 13 * msPerHour, dayStart + 14 * msPerHour⟩,
         ⟨dayStart + 14 * msPerHour, dayStart + 15 * msPerHour⟩,
         ⟨dayStart + 15 * msPerHour, dayStart + 16 * msPerHour⟩,
         ⟨dayStart + 16 * msPerHour, dayStart + 17 * msPerHour⟩] := by
  have hf : fetchDayAppointments store adminId dayStart = [] := by
    rw [fetchDayAppointments, List.filter_eq_nil_iff]
    intro a ha hcontra
    simp only [Bool.and_eq_true, beq_iff_eq, bne_iff_ne, decide_eq_true_eq]
      at hcontra
    obtain ⟨⟨⟨h1, h2⟩, h3⟩, h4⟩ := hcontra
    exact hempty a ha h1 h4 ⟨h2, h3⟩
  rw [getAvailableSlots, hf]
  have hall : ∀ i ∈ List.range 8,
      (decide (now < dayStart + ((9 : Int) + Int.ofNat i) * msPerHour)) =
        true := by
    intro i hi
    rw [decide_eq_true_eq]
    have hi8 : (0 : Int) ≤ Int.ofNat i := Int.ofNat_nonneg i
    have hstep : dayStart + 9 * msPerHour ≤
        dayStart + ((9 : Int) + Int.ofNat i) * msPerHour := by
      have hms : (0 : Int) ≤ msPerHour := by simp [msPerHour]
      nlinarith
    omega
  rw [genSlots]
  simp only [List.any_nil, Bool.not_false, Bool.true_and]
  rw [filterMap_if_all
      (fun i => ⟨dayStart + ((9 : Int) + Int.ofNat i) * msPerHour,
        dayStart + ((9 : Int) + Int.ofNat i) * msPerHour + msPerHour⟩)
      (fun i => decide (now < dayStart + ((9 : Int) + Int.ofNat i) * msPerHour))
      (List.range 8) hall]
  rw [show List.range 8 = [0, 1, 2, 3, 4, 5, 6, 7] from rfl]
  simp only [List.map_cons, List.map_nil]
  norm_num [msPerHour, Slot.mk.injEq]
  omega

/-- Witness for `C2_slots_avoid_fetched`: with one booked 10:00–11:00
appointment, the returned 09:00 slot is in the future and conflicts with no
fetched appointment. -/
theorem C2_slots_avoid_fetched_witness :
    (1 : Int) < (32400000 : Int) ∧
      ((⟨20, 1, 50, "fitting", AppStatus.scheduled, 36000000, 39600000, "r",
          false, none, none⟩ : Appointment) ∈
          fetchDayAppointments
            [⟨20, 1, 50, "fitting", AppStatus.scheduled, 36000000, 39600000,
               "r", false, none, none⟩] 50 0 ↔
        (⟨20, 1, 50, "fitting", AppStatus.scheduled, 36000000, 39600000, "r",
           false, none, none⟩ : Appointment) ∈
            [⟨20, 1, 50, "fitting", AppStatus.scheduled, 36000000, 39600000,
               "r", false, none, none⟩] ∧
          (⟨20, 1, 50, "fitting", AppStatus.scheduled, 36000000, 39600000,
             "r", false, none, none⟩ : Appointment).admin = 50 ∧
          (0 : Int) ≤ (⟨20, 1, 50, "fitting", AppStatus.scheduled, 36000000,
             39600000, "r", false, none, none⟩ : Appointment).startTime ∧
          (⟨20, 1, 50, "fitting", AppStatus.scheduled, 36000000, 39600000,
             "r", false, none, none⟩ : Appointment).startTime ≤
              (0 : Int) + 86399999 ∧
          (⟨20, 1, 50, "fitting", AppStatus.scheduled, 36000000, 39600000,
             "r", false, none, none⟩ : Appointment).status ≠
            AppStatus.cancelled) ∧
      ((⟨20, 1, 50, "fitting", AppStatus.scheduled, 36000000, 39600000, "r",
          false, none, none⟩ : Appointment) ∈
          fetchDayAppointments
            [⟨20, 1, 50, "fitting", AppStatus.scheduled, 36000000, 39600000,
               "r", false, none, none⟩] 50 0 →
        ¬((Slot.mk 32400000 36000000).startTime <
            (⟨20, 1, 50, "fitting", AppStatus.scheduled, 36000000, 39600000,
               "r", false, none, none⟩ : Appointment).endTime ∧
          (Slot.mk 32400000 36000000).endTime >
            (⟨20, 1, 50, "fitting", AppStatus.scheduled, 36000000, 39600000,
               "r", false, none, none⟩ : Appointment).startTime)) :=
  C2_slots_avoid_fetched
    [⟨20, 1, 50, "fitting", AppStatus.scheduled, 36000000, 39600000, "r",
       false, none, none⟩] 50 0 1
    [⟨32400000, 36000000⟩, ⟨39600000, 43200000⟩, ⟨43200000, 46800000⟩,
     ⟨46800000, 50400000⟩, ⟨50400000, 54000000⟩, ⟨54000000, 57600000⟩,
     ⟨57600000, 61200000⟩]
    ⟨32400000, 36000000⟩
    ⟨20, 1, 50, "fitting", AppStatus.scheduled, 36000000, 39600000, "r",
      false, none, none⟩
    (by rfl) (by decide)

/-- Witness for `C7_empty_day_slots`: empty store, day starting at epoch,
queried at instant `-1`. -/
theorem C7_empty_day_slots_witness :
    getAvailableSlots [] (some 1) (some 0) (-1) =
      Except.ok
        [⟨(0 : Int) + 9 * msPerHour, (0 : Int) + 10 * msPerHour⟩,
         ⟨(0 : Int) + 10 * msPerHour, (0 : Int) + 11 * msPerHour⟩,
         ⟨(0 : Int) + 11 * msPerHour, (0 : Int) + 12 * msPerHour⟩,
         ⟨(0 : Int) + 12 * msPerHour, (0 : Int) + 13 * msPerHour⟩,
         ⟨(0 : Int) + 13 * msPerHour, (0 : Int) + 14 * msPerHour⟩,
         ⟨(0 : Int) + 14 * msPerHour, (0 : Int) + 15 * msPerHour⟩,
         ⟨(0 : Int) + 15 * msPerHour, (0 : Int) + 16 * msPerHour⟩,
         ⟨(0 : Int) + 16 * msPerHour, (0 : Int) + 17 * msPerHour⟩] :=
  C7_empty_day_slots [] 1 0 (-1) (by simp) (by norm_num [msPerHour])

/-- C4: `createConsultation` fails with a TypeError for every existing
appointment: the controller dereferences `appointment.user` and
`appointment.practitioner`, which are not paths of the Appointment schema
(the schema's fields are `patient` and `admin`), so no call ever reaches
the idempotent-creation logic. -/
theorem C4_createConsultation_type_error (appts : AppStore) (cons : ConsStore)
    (caller : Caller) (apptId newId : Nat) (a : Appointment)
    (hfind : appts.find? (fun x => x.id == apptId) = some a) :
    createConsultation appts cons caller apptId newId =
      Except.error Err.typeError := by
  simp [createConsultation, hfind, apptUserField, apptPractitionerField]

/-- Witness for `C4_createConsultation_type_error` at a concrete store. -/
theorem C4_createConsultation_type_error_witness :
    createConsultation
      [⟨10, 1, 50, "fitting", AppStatus.scheduled, 100000, 200000, "r",
         false, none, none⟩] [] ⟨1, Role.user⟩ 10 99 =
      Except.error Err.typeError :=
  C4_createConsultation_type_error _ _ _ _ _
    ⟨10, 1, 50, "fitting", AppStatus.scheduled, 100000, 200000, "r", false,
      none, none⟩ (by rfl)

/-- C5: a caller who is neither the consultation's patient nor its
practitioner nor an admin is rejected with the authorization error by
`startConsultation`, `endConsultation`, `joinConsultation`, `addNotes` and
`submitFeedback`; and `endConsultation` additionally rejects every caller
who is not the practitioner and not an admin — in particular a caller who
is only the patient. -/
theorem C5_consultation_auth (store : ConsStore) (c : Consultation)
    (cid : Nat) (caller : Caller) (now : Int)
    (notes patientNotes practitionerNotes : Option String) (noteTxt : String)
    (type? : Option String) (rating technicalRating : Option Int)
    (fb : Option String)
    (hfind : store.find? (fun d => d.id == cid) = some c) :
    (c.patient ≠ caller.id → c.practitioner ≠ caller.id →
      caller.role ≠ Role.admin →
      startConsultation store caller cid now = (store, some Err.notAuthorized) ∧
      endConsultation store caller cid now notes patientNotes
        practitionerNotes = Except.error Err.notAuthorized ∧
      joinConsultation store caller cid now = Except.error Err.notAuthorized ∧
      addNotes store caller cid noteTxt type? = Except.error Err.notAuthorized ∧
      submitFeedback store caller cid rating fb technicalRating =
        Except.error Err.notAuthorized) ∧
    (c.practitioner ≠ caller.id → caller.role ≠ Role.admin →
      endConsultation store caller cid now notes patientNotes
        practitionerNotes = Except.error Err.notAuthorized) := by
  constructor
  · intro hp hpr hrole
    refine ⟨?_, ?_, ?_, ?_, ?_⟩
    · simp [startConsultation, hfind, hp, hpr, hrole]
    · simp [endConsultation, hfind, hpr, hrole]
    · simp [joinConsultation, hfind, hp, hpr, hrole]
    · simp [addNotes, hfind, hp, hpr, hrole]
    · simp [submitFeedback, hfind, hp, hpr]
  · intro hpr hrole
    simp [endConsultation, hfind, hpr, hrole]

/-- Witness for `C5_consultation_auth`: a stranger (id 3) is rejected by all
five operations, and the patient (id 1) is rejected by `endConsultation`. -/
theorem C5_consultation_auth_witness :
    (startConsultation
        [⟨1, 10, 1, 2, "room1", ConsStatus.scheduled, 100000, some 200000,
           none, none, none, none, none, none, [], {}⟩]
        ⟨3, Role.user⟩ 1 5000 =
      ([⟨1, 10, 1, 2, "room1", ConsStatus.scheduled, 100000, some 200000,
           none, none, none, none, none, none, [], {}⟩],
        some Err.notAuthorized)) ∧
    (endConsultation
        [⟨1, 10, 1, 2, "room1", ConsStatus.scheduled, 100000, some 200000,
           none, none, none, none, none, none, [], {}⟩]
        ⟨1, Role.user⟩ 1 5000 none none none =
      Except.error Err.notAuthorized) := by
  constructor
  · exact (C5_consultation_auth
      [⟨1, 10, 1, 2, "room1", ConsStatus.scheduled, 100000, some 200000,
         none, none, none, none, none, none, [], {}⟩]
      ⟨1, 10, 1, 2, "room1", ConsStatus.scheduled, 100000, some 200000,
        none, none, none, none, none, none, [], {}⟩
      1 ⟨3, Role.user⟩ 5000 none none none "n" none none none none
      (by rfl)).1 (by decide) (by decide) (by decide) |>.1
  · exact (C5_consultation_auth
      [⟨1, 10, 1, 2, "room1", ConsStatus.scheduled, 100000, some 200000,
         none, none, none, none, none, none, [], {}⟩]
      ⟨1, 10, 1, 2, "room1", ConsStatus.scheduled, 100000, some 200000,
        none, none, none, none, none, none, [], {}⟩
      1 ⟨1, Role.user⟩ 5000 none none none "n" none none none none
      (by rfl)).2 (by decide) (by decide)

/-- C6: after a successful `cancelAppointment`, the store holds the same
record with `status := 'cancelled'`, `cancelledAt` stamped and the reason
defaulted; the cancelled record conflicts with nothing (so the write-time
overlap check behaves as if it were absent — a new booking for the old
window succeeds whenever nothing else conflicts), and it is dropped from
the `getAvailableSlots` fetch, so slots it alone blocked are returned
again. -/
theorem C6_cancel_excludes (store : AppStore) (caller : Caller) (apptId : Nat)
    (now : Int) (reason : Option String) (s' : AppStore)
    (h : cancelAppointment store caller apptId now reason = Except.ok s') :
    ∃ a, store.find? (fun b => b.id == apptId) = some a ∧ a.id = apptId ∧
      s' = { a with
             status := AppStatus.cancelled
             cancelledAt := some now
             cancellationReason := some (reason.getD "No reason provided") }
           :: store.filter (fun b => b.id != a.id) ∧
      (∀ b : Appointment, conflictsWith b
        { a with
          status := AppStatus.cancelled
          cancelledAt := some now
          cancellationReason := some (reason.getD "No reason provided") } =
        false) ∧
      (∀ b : Appointment, s'.any (conflictsWith b) =
        (store.filter (fun x => x.id != a.id)).any (conflictsWith b)) ∧
      (∀ (adminId : Nat) (dayStart : Int),
        fetchDayAppointments s' adminId dayStart =
          fetchDayAppointments (store.filter (fun x => x.id != a.id))
            adminId dayStart) ∧
      (∀ (adminOpt : Option Nat) (dateOpt : Option Int) (now2 : Int),
        getAvailableSlots s' adminOpt dateOpt now2 =
          getAvailableSlots (store.filter (fun x => x.id != a.id))
            adminOpt dateOpt now2) := by
  unfold cancelAppointment at h
  cases hfind : store.find? (fun b => b.id == apptId) with
  | none => rw [hfind] at h; exact absurd h (by simp)
  | some a =>
    rw [hfind] at h
    dsimp only at h
    split_ifs at h with hauth
    unfold apptSave at h
    split_ifs at h with hval hconf
    obtain rfl := Except.ok.inj h
    have hid : a.id = apptId := by simpa using List.find?_some hfind
    have hnoc : ∀ b : Appointment, conflictsWith b
        { a with
          status := AppStatus.cancelled
          cancelledAt := some now
          cancellationReason := some (reason.getD "No reason provided") } =
        false := by
      intro b
      simp [conflictsWith]
    have hfetch : ∀ (adminId : Nat) (dayStart : Int),
        fetchDayAppointments
            ({ a with
               status := AppStatus.cancelled
               cancelledAt := some now
               cancellationReason :=
                 some (reason.getD "No reason provided") }
              :: store.filter (fun b => b.id != a.id)) adminId dayStart =
          fetchDayAppointments (store.filter (fun x => x.id != a.id))
            adminId dayStart := by
      intro adminId dayStart
      simp [fetchDayAppointments, List.filter_cons]
    refine ⟨a, rfl, hid, rfl, hnoc, ?_, hfetch, ?_⟩
    · intro b
      simp [List.any_cons, hnoc b]
    · intro adminOpt dateOpt now2
      cases dateOpt with
      | none => rfl
      | some dayStart =>
        cases adminOpt with
        | none => rfl
        | some adminId => simp [getAvailableSlots, hfetch adminId dayStart]

/-- Witness for `C6_cancel_excludes`: cancelling the sole appointment of a
one-appointment store succeeds, and the conclusion holds there. -/
theorem C6_cancel_excludes_witness :
    cancelAppointment
      [⟨10, 1, 50, "fitting", AppStatus.scheduled, 100000, 200000, "r",
         false, none, none⟩] ⟨1, Role.user⟩ 10 999 none =
      Except.ok
        [⟨10, 1, 50, "fitting", AppStatus.cancelled, 100000, 200000, "r",
           false, some 999, some "No reason provided"⟩] ∧
    (∃ a, ([⟨10, 1, 50, "fitting", AppStatus.scheduled, 100000, 200000, "r",
             false, none, none⟩] : AppStore).find?
          (fun b => b.id == 10) = some a ∧ a.id = 10 ∧
      ([⟨10, 1, 50, "fitting", AppStatus.cancelled, 100000, 200000, "r",
          false, some 999, some "No reason provided"⟩] : AppStore) =
        { a with
          status := AppStatus.cancelled
          cancelledAt := some 999
          cancellationReason := some ((none : Option String).getD
            "No reason provided") }
          :: ([⟨10, 1, 50, "fitting", AppStatus.scheduled, 100000, 200000,
                 "r", false, none, none⟩] : AppStore).filter
            (fun b => b.id != a.id) ∧
      (∀ b : Appointment, conflictsWith b
        { a with
          status := AppStatus.cancelled
          cancelledAt := some 999
          cancellationReason := some ((none : Option String).getD
            "No reason provided") } = false) ∧
      (∀ b : Appointment,
        ([⟨10, 1, 50, "fitting", AppStatus.cancelled, 100000, 200000, "r",
            false, some 999, some "No reason provided"⟩] : AppStore).any
            (conflictsWith b) =
          (([⟨10, 1, 50, "fitting", AppStatus.scheduled, 100000, 200000, "r",
               false, none, none⟩] : AppStore).filter
              (fun x => x.id != a.id)).any (conflictsWith b)) ∧
      (∀ (adminId : Nat) (dayStart : Int),
        fetchDayAppointments
            [⟨10, 1, 50, "fitting", AppStatus.cancelled, 100000, 200000, "r",
               false, some 999, some "No reason provided"⟩] adminId dayStart =
          fetchDayAppointments
            (([⟨10, 1, 50, "fitting", AppStatus.scheduled, 100000, 200000,
                 "r", false, none, none⟩] : AppStore).filter
              (fun x => x.id != a.id)) adminId dayStart) ∧
      (∀ (adminOpt : Option Nat) (dateOpt : Option Int) (now2 : Int),
        getAvailableSlots
            [⟨10, 1, 50, "fitting", AppStatus.cancelled, 100000, 200000, "r",
               false, some 999, some "No reason provided"⟩] adminOpt dateOpt
            now2 =
          getAvailableSlots
            (([⟨10, 1, 50, "fitting", AppStatus.scheduled, 100000, 200000,
                 "r", false, none, none⟩] : AppStore).filter
              (fun x => x.id != a.id)) adminOpt dateOpt now2)) :=
  ⟨by decide,
   C6_cancel_excludes
     [⟨10, 1, 50, "fitting", AppStatus.scheduled, 100000, 200000, "r", false,
        none, none⟩] ⟨1, Role.user⟩ 10 999 none
     [⟨10, 1, 50, "fitting", AppStatus.cancelled, 100000, 200000, "r", false,
        some 999, some "No reason provided"⟩] (by decide)⟩

/-- The duration-recomputing hook only ever rewrites the `duration`
field. -/
theorem consPreSave_duration_update (c : Consultation) :
    ∃ d, consPreSave c = { c with duration := d } := by
  unfold consPreSave
  split
  · split
    · exact ⟨_, rfl⟩
    · exact ⟨c.duration, rfl⟩
  · exact ⟨c.duration, rfl⟩

/-- The duration-recomputing hook touches nothing but `duration`. -/
theorem consPreSave_only_duration (c : Consultation) :
    consPreSave c = { c with duration := (consPreSave c).duration } := by
  obtain ⟨d, hd⟩ := consPreSave_duration_update c
  rw [hd]

/-- The duration-recomputing hook is the identity on a document whose
`duration` already holds the value it would recompute. -/
theorem consPreSave_stable (c : Consultation) (s e : Int)
    (hs : c.actualStartTime = some s) (he : c.actualEndTime = some e)
    (hd : c.duration = some (JSNum.num (jsRoundMin (e - s)))) :
    consPreSave c = c := by
  unfold consPreSave
  rw [hs, he]
  split
  case h_1 s' e' heq1 heq2 =>
    obtain rfl := Option.some.inj heq1
    obtain rfl := Option.some.inj heq2
    split
    · rw [← hd, ← hs, ← he]
    · rfl
  case h_2 hfalse => exact absurd rfl (fun hcon => hfalse s e hcon rfl)

/-- The `addParticipant` method touches nothing but `participants`. -/
theorem mAddParticipant_only_participants (c : Consultation) (uid : Nat)
    (now : Int) :
    mAddParticipant c uid now =
      { c with participants := (mAddParticipant c uid now).participants } := by
  unfold mAddParticipant
  split_ifs <;> rfl

/-- The function `updateFirstPart` is the identity when no entry matches the user. -/
theorem updateFirstPart_absent (f : Participant → Participant) (uid : Nat)
    (ps : List Participant)
    (h : ps.all (fun p => p.user != uid) = true) :
    updateFirstPart f uid ps = ps := by
  induction ps with
  | nil => rfl
  | cons p ps ih =>
    rw [List.all_cons, Bool.and_eq_true] at h
    simp only [updateFirstPart]
    rw [if_neg (by simpa using h.1), ih h.2]

/-- C8 (failing input): on a consultation with an empty `participants` list,
the patient's own `joinConsultation` is rejected with a validation error —
`addParticipant` pushes an entry without the schema-required `role`, so the
save fails and no participant entry is persisted. -/
theorem C8_first_join_validation_error :
    joinConsultation
      [⟨1, 10, 1, 2, "room1", ConsStatus.scheduled, 100000, some 200000,
         none, none, none, none, none, none, [], {}⟩]
      ⟨1, Role.user⟩ 1 5000 = Except.error Err.validationFailed ∧
    ((mAddParticipant
        ⟨1, 10, 1, 2, "room1", ConsStatus.scheduled, 100000, some 200000,
          none, none, none, none, none, none, [], {}⟩ 1 5000).participants.all
      (fun p => p.role.isSome)) = false := by decide

/-- C9: `leaveConsultation` performs no authorization check: any caller who
does not appear in `participants` gets a success response, and the stored
record is unchanged apart from the duration-bookkeeping `pre('save')`
hook. -/
theorem C9_leave_no_auth_noop (store : ConsStore) (c : Consultation)
    (cid : Nat) (caller : Caller) (now : Int)
    (hfind : store.find? (fun d => d.id == cid) = some c)
    (hvalid : consValid c = true)
    (habsent : c.participants.all (fun p => p.user != caller.id) = true) :
    leaveConsultation store caller cid now =
      Except.ok (consPreSave c :: store.filter (fun d => d.id != c.id)) ∧
    consPreSave c = { c with duration := (consPreSave c).duration } ∧
    (consPreSave c).participants = c.participants ∧
    (consPreSave c).status = c.status := by
  have hrm : mRemoveParticipant c caller.id now = c := by
    unfold mRemoveParticipant
    rw [updateFirstPart_absent _ _ _ habsent]
  refine ⟨?_, consPreSave_only_duration c, ?_, ?_⟩
  · unfold leaveConsultation
    rw [hfind]
    dsimp only
    unfold consSave
    rw [hrm, hvalid]
    rfl
  · rw [consPreSave_only_duration c]
  · rw [consPreSave_only_duration c]

/-- Witness for `C9_leave_no_auth_noop`: a stranger (id 9) leaves a
consultation they never joined; the call succeeds and the record is
unchanged. -/
theorem C9_leave_no_auth_noop_witness :
    leaveConsultation
      [⟨1, 10, 1, 2, "room1", ConsStatus.scheduled, 100000, some 200000,
         none, none, none, none, none, none, [], {}⟩]
      ⟨9, Role.user⟩ 1 5000 =
      Except.ok
        (consPreSave
          ⟨1, 10, 1, 2, "room1", ConsStatus.scheduled, 100000, some 200000,
            none, none, none, none, none, none, [], {}⟩ ::
          ([⟨1, 10, 1, 2, "room1", ConsStatus.scheduled, 100000, some 200000,
              none, none, none, none, none, none, [], {}⟩] : ConsStore).filter
            (fun d => d.id != 1)) ∧
    consPreSave
        ⟨1, 10, 1, 2, "room1", ConsStatus.scheduled, 100000, some 200000,
          none, none, none, none, none, none, [], {}⟩ =
      { (⟨1, 10, 1, 2, "room1", ConsStatus.scheduled, 100000, some 200000,
          none, none, none, none, none, none, [], {}⟩ : Consultation) with
        duration := (consPreSave
          ⟨1, 10, 1, 2, "room1", ConsStatus.scheduled, 100000, some 200000,
            none, none, none, none, none, none, [], {}⟩).duration } ∧
    (consPreSave
        ⟨1, 10, 1, 2, "room1", ConsStatus.scheduled, 100000, some 200000,
          none, none, none, none, none, none, [], {}⟩).participants =
      (⟨1, 10, 1, 2, "room1", ConsStatus.scheduled, 100000, some 200000,
         none, none, none, none, none, none, [], {}⟩ : Consultation).participants ∧
    (consPreSave
        ⟨1, 10, 1, 2, "room1", ConsStatus.scheduled, 100000, some 200000,
          none, none, none, none, none, none, [], {}⟩).status =
      (⟨1, 10, 1, 2, "room1", ConsStatus.scheduled, 100000, some 200000,
         none, none, none, none, none, none, [], {}⟩ : Consultation).status :=
  C9_leave_no_auth_noop
    [⟨1, 10, 1, 2, "room1", ConsStatus.scheduled, 100000, some 200000,
       none, none, none, none, none, none, [], {}⟩]
    ⟨1, 10, 1, 2, "room1", ConsStatus.scheduled, 100000, some 200000,
      none, none, none, none, none, none, [], {}⟩
    1 ⟨9, Role.user⟩ 5000 (by rfl) (by decide) (by decide)

/-- Field accounting for the `endConsultation` instance method. -/
theorem mEndConsultation_fields (c : Consultation) (now : Int)
    (notes : Option String) :
    (mEndConsultation c now notes).roomId = c.roomId ∧
    (mEndConsultation c now notes).participants = c.participants ∧
    (mEndConsultation c now notes).feedback = c.feedback ∧
    (mEndConsultation c now notes).status = ConsStatus.completed ∧
    (mEndConsultation c now notes).actualEndTime = some now ∧
    (mEndConsultation c now notes).actualStartTime = c.actualStartTime ∧
    (mEndConsultation c now notes).id = c.id :=
  ⟨rfl, rfl, rfl, rfl, rfl, rfl, rfl⟩

/-- The duration stamped by the `endConsultation` method on a consultation
whose `actualStartTime` is set. -/
theorem mEndConsultation_duration (c : Consultation) (now s0 : Int)
    (notes : Option String) (hstart : c.actualStartTime = some s0) :
    (mEndConsultation c now notes).duration =
      some (JSNum.num (jsRoundMin (now - s0))) := by
  simp only [mEndConsultation, hstart]

/-- C10 counterexample: `endConsultation` invoked by the practitioner on a
consultation that was never started (`actualStartTime` unset, status
`scheduled`) does not complete it — the method computes `duration = NaN`
(`Date` minus `undefined`) and the save is rejected by the `Number` cast, so
the claimed unconditional transition to `completed` fails on a
not-yet-started consultation. -/
theorem C10_counterexample :
    endConsultation
      [⟨1, 10, 1, 2, "room1", ConsStatus.scheduled, 100000, some 200000,
         none, none, none, none, none, none, [], {}⟩]
      ⟨2, Role.user⟩ 1 5000 none none none =
      Except.error Err.validationFailed := by decide

/-- C10 (amended): neither `startConsultation` nor `endConsultation`
inspects the current status.  From ANY status — `completed` and `cancelled`
included — a start leaves the stored record `active` with a fresh
`actualStartTime`, and an end by the practitioner or an admin succeeds with
status `completed`, a stamped `actualEndTime` and a recomputed `duration`,
provided the consultation has an `actualStartTime`; the only failing case,
refuted in `C10_counterexample`, is ending a never-started consultation,
and that failure comes from the `NaN` duration cast, not from any
state-machine guard. -/
theorem C10_start_end_ignore_status (store : ConsStore) (c : Consultation)
    (cid : Nat) (caller : Caller) (now s0 : Int)
    (notes patientNotes practitionerNotes : Option String)
    (hfind : store.find? (fun d => d.id == cid) = some c)
    (hvalid : consValid c = true) :
    ((c.patient = caller.id ∨ c.practitioner = caller.id ∨
        caller.role = Role.admin) →
      ∃ d, ((startConsultation store caller cid now).1).find?
          (fun x => x.id == cid) = some d ∧
        d.status = ConsStatus.active ∧ d.actualStartTime = some now) ∧
    ((c.practitioner = caller.id ∨ caller.role = Role.admin) →
      c.actualStartTime = some s0 →
      ∃ store' d, endConsultation store caller cid now notes patientNotes
          practitionerNotes = Except.ok store' ∧
        store'.find? (fun x => x.id == cid) = some d ∧
        d.status = ConsStatus.completed ∧ d.actualEndTime = some now ∧
        d.duration = some (JSNum.num (jsRoundMin (now - s0)))) := by
  have hcid : (c.id == cid) = true := by simpa using List.find?_some hfind
  constructor
  · intro hauth
    have hA : (c.patient != caller.id && c.practitioner != caller.id &&
        caller.role != Role.admin) = false := by
      rcases hauth with h | h | h <;> simp [h]
    have hv1 : consValid (mStartConsultation c now) = true := hvalid
    unfold startConsultation
    rw [hfind]
    dsimp only
    rw [hA]
    simp only [Bool.false_eq_true, if_false]
    simp only [consSave, hv1, Bool.not_true, Bool.false_eq_true, if_false]
    cases hv2 : consValid (mAddParticipant
        (consPreSave (mStartConsultation c now)) caller.id now) with
    | false =>
      simp only [hv2, Bool.not_false, if_true]
      refine ⟨consPreSave (mStartConsultation c now),
        List.find?_cons_of_pos _ ?_, ?_, ?_⟩
      · rw [consPreSave_only_duration]
        exact hcid
      · rw [consPreSave_only_duration]
        rfl
      · rw [consPreSave_only_duration]
        rfl
    | true =>
      simp only [hv2, Bool.not_true, Bool.false_eq_true, if_false]
      refine ⟨consPreSave (mAddParticipant
          (consPreSave (mStartConsultation c now)) caller.id now),
        List.find?_cons_of_pos _ ?_, ?_, ?_⟩
      · rw [consPreSave_only_duration, mAddParticipant_only_participants,
          consPreSave_only_duration]
        exact hcid
      · rw [consPreSave_only_duration, mAddParticipant_only_participants,
          consPreSave_only_duration]
        rfl
      · rw [consPreSave_only_duration, mAddParticipant_only_participants,
          consPreSave_only_duration]
        rfl
  · intro hauth hstart
    obtain ⟨hfr, hfp, hff, hfst, hfet, hfas, hfid⟩ :=
      mEndConsultation_fields c now notes
    have hd1 := mEndConsultation_duration c now s0 notes hstart
    have hA : (c.practitioner != caller.id && caller.role != Role.admin) =
        false := by
      rcases hauth with h | h <;> simp [h]
    have hv1 : consValid (mEndConsultation c now notes) = true := by
      unfold consValid at hvalid ⊢
      rw [hfr, hfp, hff, hd1]
      simp only [Bool.and_eq_true] at hvalid ⊢
      exact ⟨⟨⟨⟨⟨hvalid.1.1.1.1.1, hvalid.1.1.1.1.2⟩, by simp⟩,
        hvalid.1.1.2⟩, hvalid.1.2⟩, hvalid.2⟩
    have hpre : consPreSave (mEndConsultation c now notes) =
        mEndConsultation c now notes :=
      consPreSave_stable _ s0 now (hfas.trans hstart) hfet hd1
    unfold endConsultation
    rw [hfind]
    dsimp only
    rw [hA]
    simp only [Bool.false_eq_true, if_false]
    simp only [consSave, hv1, Bool.not_true, Bool.false_eq_true, if_false]
    rw [hpre]
    have hv3 : consValid (applyEndNotes (mEndConsultation c now notes)
        patientNotes practitionerNotes) = true := hv1
    simp only [hv3, Bool.not_true, Bool.false_eq_true, if_false]
    have hpre3 : consPreSave (applyEndNotes (mEndConsultation c now notes)
          patientNotes practitionerNotes) =
        applyEndNotes (mEndConsultation c now notes) patientNotes
          practitionerNotes :=
      consPreSave_stable _ s0 now (hfas.trans hstart) hfet hd1
    rw [hpre3]
    refine ⟨_, _, rfl, List.find?_cons_of_pos _ ?_, ?_, ?_, ?_⟩
    · exact hcid
    · rfl
    · rfl
    · exact hd1

/-- Witness for `C10_start_end_ignore_status`: the patient restarts a
`completed` consultation (it becomes `active` again), and the practitioner
ends a `cancelled`-but-started consultation (it becomes `completed`). -/
theorem C10_start_end_ignore_status_witness :
    (∃ d, ((startConsultation
          [⟨1, 10, 1, 2, "room1", ConsStatus.completed, 100000, some 200000,
             none, none, none, none, none, none, [], {}⟩]
          ⟨1, Role.user⟩ 1 5000).1).find? (fun x => x.id == 1) = some d ∧
      d.status = ConsStatus.active ∧ d.actualStartTime = some 5000) ∧
    (∃ store' d, endConsultation
          [⟨1, 10, 1, 2, "room1", ConsStatus.cancelled, 100000, some 200000,
             some 100000, none, none, none, none, none, [], {}⟩]
          ⟨2, Role.user⟩ 1 190000 none none none = Except.ok store' ∧
        store'.find? (fun x => x.id == 1) = some d ∧
        d.status = ConsStatus.completed ∧ d.actualEndTime = some 190000 ∧
        d.duration = some (JSNum.num (jsRoundMin (190000 - 100000)))) :=
  ⟨(C10_start_end_ignore_status
      [⟨1, 10, 1, 2, "room1", ConsStatus.completed, 100000, some 200000,
         none, none, none, none, none, none, [], {}⟩]
      ⟨1, 10, 1, 2, "room1", ConsStatus.completed, 100000, some 200000,
        none, none, none, none, none, none, [], {}⟩
      1 ⟨1, Role.user⟩ 5000 0 none none none (by rfl) (by decide)).1
      (Or.inl rfl),
   (C10_start_end_ignore_status
      [⟨1, 10, 1, 2, "room1", ConsStatus.cancelled, 100000, some 200000,
         some 100000, none, none, none, none, none, [], {}⟩]
      ⟨1, 10, 1, 2, "room1", ConsStatus.cancelled, 100000, some 200000,
        some 100000, none, none, none, none, none, [], {}⟩
      1 ⟨2, Role.user⟩ 190000 100000 none none none (by rfl) (by decide)).2
      (Or.inl rfl) (by rfl)⟩

end FixAndFit
